import Mathlib

/-!
Shallow embedding of docs/examples/conda/README.ipynb: a Jupyter notebook
that defines a Conda environment, trains a Scikit-Learn digits classifier,
packages the environment with conda-pack, documents a Docker launch of the
MLServer image, and sends one HTTP inference request.  The notebook is
modelled as an ordered list of cells, each carrying the actions its source
performs (code cells) or documents (markdown cells); the data the notebook
builds (the YAML descriptor, the JSON settings file, the inference payload)
is embedded structurally.
-/

namespace CondaNb

/-- JSON values, as used by the payloads the notebook writes and sends. -/
inductive Json where
  | str (s : String)
  | num (n : Int)
  | arr (elems : List Json)
  | obj (fields : List (String × Json))

/-- YAML values, as written to environment.yml by the first code cell. -/
inductive Yaml where
  | str (s : String)
  | list (elems : List Yaml)
  | map (fields : List (String × Yaml))

/-- Content of environment.yml exactly as the writefile cell emits it:
a name and a dependency list, the last dependency being a pip map. -/
def environmentYml : Yaml :=
  Yaml.map [
    ("name", Yaml.str "old-sklearn"),
    ("dependencies", Yaml.list [
      Yaml.str "python == 3.7",
      Yaml.str "scikit-learn == 0.20.3",
      Yaml.str "joblib == 0.13.0",
      Yaml.str "requests",
      Yaml.map [("pip", Yaml.list [
        Yaml.str "mlserver == 0.6.0.dev0",
        Yaml.str "mlserver-sklearn ==0.6.0.dev0"])]])]

/-- Content of model-settings.json exactly as the writefile cell emits it. -/
def modelSettingsJson : Json :=
  Json.obj [
    ("name", Json.str "mnist-svm"),
    ("implementation", Json.str "mlserver_sklearn.SKLearnModel")]

/-- The fixed inference endpoint assigned in the last code cell. -/
def endpointUrl : String := "http://localhost:8080/v2/models/mnist-svm/infer"

/-- One effectful operation performed (code cell) or documented (markdown
cell) by the notebook, with the arguments appearing in the source. -/
inductive Action where
  | writeFileYaml (path : String) (content : Yaml)
  | writeFileJson (path : String) (content : Json)
  | condaEnvCreate (file : String)
  | condaActivate (envName : String)
  | loadDigits
  | reshapeToMatrix
  | makeClassifier
  | splitTrainTest (testSizeNum testSizeDen : Nat) (shuffle : Bool)
  | fitClassifier
  | joblibDump (file : String)
  | condaPack (envName : String) (outFile : String)
  | dockerRun (volumeSrc volumeDst envVarName envVarValue : String)
      (hostPort containerPort : Nat) (image : String)
  | httpPost (url : String)
  | displayResponseJson

/-- Kind of a notebook cell. -/
inductive CellType where
  | markdown
  | code
deriving DecidableEq

/-- A notebook cell: its kind and the actions its source performs
(code) or documents (markdown). -/
structure Cell where
  ctype : CellType
  actions : List Action

/-- The sixteen cells of README.ipynb, in order.  Code cells carry the
operations their code performs; the markdown cell before the inference
section documents the docker run command that the reader is told to run
in a separate terminal session. -/
def notebook : List Cell := [
  ⟨CellType.markdown, []⟩,
  ⟨CellType.markdown, []⟩,
  ⟨CellType.code, [Action.writeFileYaml "environment.yml" environmentYml]⟩,
  ⟨CellType.markdown, []⟩,
  ⟨CellType.code, [Action.condaEnvCreate "environment.yml",
                   Action.condaActivate "old-sklearn"]⟩,
  ⟨CellType.markdown, []⟩,
  ⟨CellType.code, [Action.loadDigits, Action.reshapeToMatrix,
                   Action.makeClassifier,
                   Action.splitTrainTest 1 2 false,
                   Action.fitClassifier]⟩,
  ⟨CellType.code, [Action.joblibDump "model.joblib"]⟩,
  ⟨CellType.markdown, []⟩,
  ⟨CellType.code, [Action.condaPack "old-sklearn" "old-sklearn.tar.gz"]⟩,
  ⟨CellType.markdown, []⟩,
  ⟨CellType.code, [Action.writeFileJson "model-settings.json" modelSettingsJson]⟩,
  ⟨CellType.markdown, [Action.dockerRun "$PWD" "/mnt/models"
      "MLSERVER_ENV_TARBALL" "/mnt/models/old-sklearn.tar.gz"
      8080 8080 "seldonio/mlserver:0.6.0.dev0"]⟩,
  ⟨CellType.markdown, []⟩,
  ⟨CellType.code, [Action.httpPost endpointUrl, Action.displayResponseJson]⟩,
  ⟨CellType.code, []⟩]

/-- Actions executed when the cells are run top to bottom: the actions of
the code cells, in order. -/
def executedActions : List Action :=
  (notebook.filter (fun c => c.ctype == CellType.code)).flatMap Cell.actions

/-- All actions the notebook performs or documents, in order; this adds the
docker command documented in the markdown cell. -/
def documentedActions : List Action := notebook.flatMap Cell.actions

/-- Whether an action is an HTTP request. -/
def isHttpAction : Action → Bool
  | Action.httpPost _ => true
  | _ => false

/-- Top-level keys of a YAML mapping. -/
def yamlTopKeys : Yaml → List String
  | Yaml.map fields => fields.map Prod.fst
  | _ => []

/-- Value bound to a key at the top level of a YAML mapping. -/
def yamlLookup (y : Yaml) (k : String) : Option Yaml :=
  match y with
  | Yaml.map fields => (fields.find? (fun f => f.fst == k)).map Prod.snd
  | _ => none

/-- Keys of a JSON object, in order. -/
def objKeys : Json → List String
  | Json.obj fields => fields.map Prod.fst
  | _ => []

/-- Value bound to a key of a JSON object. -/
def jsonLookup (j : Json) (k : String) : Option Json :=
  match j with
  | Json.obj fields => (fields.find? (fun f => f.fst == k)).map Prod.snd
  | _ => none

/-- Elements of the inputs array of a request payload. -/
def inputsElems (j : Json) : List Json :=
  match jsonLookup j "inputs" with
  | some (Json.arr xs) => xs
  | _ => []

/-- First element of the inputs array of a request payload. -/
def firstInput (j : Json) : Json := (inputsElems j).headD (Json.obj [])

/-- Shape of a two-dimensional numpy array given as nested lists, as the
attribute x_0.shape reads it: row count and column count. -/
def shape2 (m : List (List Int)) : List Nat := [m.length, (m.headD []).length]

/-- Transcription of the inference_request dictionary built in the last
code cell, as a function of the sliced array x_0: the shape field holds
x_0.shape and the data field holds x_0.tolist(). -/
def inferenceRequest (x0 : List (List Int)) : Json :=
  Json.obj [
    ("inputs", Json.arr [
      Json.obj [
        ("name", Json.str "predict"),
        ("shape", Json.arr ((shape2 x0).map (fun n => Json.num (Int.ofNat n)))),
        ("datatype", Json.str "FP32"),
        ("data", Json.arr (x0.map (fun row => Json.arr (row.map Json.num))))]])]

/-- Flattening of one digit image into a feature row, as done per sample
by data = digits.images.reshape((n_samples, -1)). -/
def flattenImage (img : List (List Int)) : List Int := img.flatten

/-- Transcription of data = digits.images.reshape((n_samples, -1)): each
8x8 image becomes one row of the (samples, features) matrix. -/
def reshapeData (images : List (List (List Int))) : List (List Int) :=
  images.map flattenImage

/-- Transcription of train_test_split(data, test_size=0.5, shuffle=False):
with shuffling disabled sklearn takes the test set to be the last
ceil(0.5 * n) samples and the train set the untouched first n - ceil(0.5 * n)
samples. -/
def trainTestSplitHalf (xs : List (List Int)) :
    List (List Int) × List (List Int) :=
  let nTest := (xs.length + 1) / 2
  let nTrain := xs.length - nTest
  (xs.take nTrain, xs.drop nTrain)

/-- The X_train matrix of the training cell. -/
def xTrain (images : List (List (List Int))) : List (List Int) :=
  (trainTestSplitHalf (reshapeData images)).1

/-- The X_test matrix of the training cell. -/
def xTest (images : List (List (List Int))) : List (List Int) :=
  (trainTestSplitHalf (reshapeData images)).2

/-- Documented step number (1 to 7, following the component list of the
spec) that an action belongs to; the model-settings.json write and the
display of the response belong to no numbered step. -/
def stepOf : Action → Option Nat
  | Action.writeFileYaml _ _ => some 1
  | Action.condaEnvCreate _ => some 2
  | Action.condaActivate _ => some 2
  | Action.loadDigits => some 3
  | Action.reshapeToMatrix => some 3
  | Action.makeClassifier => some 3
  | Action.splitTrainTest _ _ _ => some 3
  | Action.fitClassifier => some 3
  | Action.joblibDump _ => some 4
  | Action.condaPack _ _ => some 5
  | Action.dockerRun _ _ _ _ _ _ _ => some 6
  | Action.httpPost _ => some 7
  | Action.writeFileJson _ _ => none
  | Action.displayResponseJson => none

/-- Whether a list of naturals is nondecreasing. -/
def sortedNat : List Nat → Bool
  | [] => true
  | [_] => true
  | a :: b :: rest => decide (a ≤ b) && sortedNat (b :: rest)

/-- The YAML file writes of the notebook. -/
def getFileWriteYaml : Action → Option (String × Yaml)
  | Action.writeFileYaml p c => some (p, c)
  | _ => none

/-- The JSON file writes of the notebook. -/
def getFileWriteJson : Action → Option (String × Json)
  | Action.writeFileJson p c => some (p, c)
  | _ => none

/-- The environment names passed to conda activate. -/
def getCondaActivate : Action → Option String
  | Action.condaActivate e => some e
  | _ => none

/-- The environment name and output file passed to conda pack. -/
def getCondaPackOut : Action → Option (String × String)
  | Action.condaPack n o => some (n, o)
  | _ => none

/-- The arguments of the docker run command: volume source and destination,
environment variable name and value, host and container port, image. -/
def getDockerRun : Action → Option (String × String × String × String × Nat × Nat × String)
  | Action.dockerRun vs vd en ev hp cp im => some (vs, vd, en, ev, hp, cp, im)
  | _ => none

/-- The value assigned to the environment variable of the docker run
command. -/
def getDockerEnvValue : Action → Option String
  | Action.dockerRun _ _ _ ev _ _ _ => some ev
  | _ => none

/-- The test size fraction and shuffle flag of the train test split. -/
def getSplitParams : Action → Option (Nat × Nat × Bool)
  | Action.splitTrainTest num den sh => some (num, den, sh)
  | _ => none

/-- Whether an action is the fit call. -/
def isFitAction : Action → Bool
  | Action.fitClassifier => true
  | _ => false

/-- Split a character list on the slash character; the accumulator holds
the reversed characters of the current component. -/
def splitSlashAux : List Char → List Char → List (List Char)
  | [], acc => [acc.reverse]
  | c :: rest, acc =>
    if c = '/' then acc.reverse :: splitSlashAux rest []
    else splitSlashAux rest (c :: acc)

/-- Slash-separated components of a path or URL. -/
def pathComponents (s : String) : List String :=
  (splitSlashAux s.data []).map String.mk

/-- Last path component of a slash-separated path. -/
def basename (path : String) : String := (pathComponents path).getLastD path

/-- Model name segment of a V2 inference URL: the path component following
the models component. -/
def urlModelName (url : String) : Option String :=
  match (pathComponents url).dropWhile (fun s => s != "models") with
  | _ :: m :: _ => some m
  | _ => none

/-- Statements of a minimal language able to express error handling: a
plain action, or a try block with a handler.  The notebook source consists
of plain actions only. -/
inductive Stmt where
  | act (a : Action)
  | tryCatch (body : List Action) (handler : List Action)

/-- Run a list of actions under an interpretation of each action as either
success (none) or a failure message (some); the first failure is returned. -/
def runActions (exec : Action → Option String) : List Action → Option String
  | [] => none
  | a :: rest =>
    match exec a with
    | none => runActions exec rest
    | some e => some e

/-- Execution of a statement list: a failing plain statement aborts the
whole run with its error, while a tryCatch statement would swallow a failing
body and run its handler instead. -/
def runProgram (exec : Action → Option String) : List Stmt → Option String
  | [] => none
  | Stmt.act a :: rest =>
    match exec a with
    | none => runProgram exec rest
    | some e => some e
  | Stmt.tryCatch body handler :: rest =>
    match runActions exec body with
    | none => runProgram exec rest
    | some _ =>
      match runActions exec handler with
      | none => runProgram exec rest
      | some e => some e

/-- Whether a statement is a plain action with no handler attached. -/
def stmtPlain : Stmt → Bool
  | Stmt.act _ => true
  | Stmt.tryCatch _ _ => false

/-- The notebook as a program: its actions in order, every one a plain
statement, since the source contains no try or except and inspects no
result. -/
def notebookProgram : List Stmt := documentedActions.map Stmt.act

/-- Interpretation of the actions in which the fit call fails and every
other action succeeds. -/
def execFailFit : Action → Option String := fun a =>
  match a with
  | Action.fitClassifier => some "fit failed"
  | _ => none

/-- A concrete stack of two 8x8 digit images. -/
def imagesW : List (List (List Int)) :=
  [List.replicate 8 (List.replicate 8 0), List.replicate 8 (List.replicate 8 1)]

/-- C1: the notebook issues exactly one HTTP request, a POST to the fixed
endpoint, and the action right after it displays the parsed JSON response;
no other action anywhere in the notebook is an HTTP request. -/
theorem claim1_single_post :
    documentedActions.filter isHttpAction = [Action.httpPost endpointUrl] ∧
    endpointUrl = "http://localhost:8080/v2/models/mnist-svm/infer" ∧
    (documentedActions.dropWhile (fun a => !(isHttpAction a))).take 2 =
      [Action.httpPost endpointUrl, Action.displayResponseJson] :=
  ⟨rfl, rfl, rfl⟩

/-- C2: for every sliced array x_0, the request body is a JSON object whose
single key is inputs, bound to an array, and every element of that array is
an object whose keys are exactly name, shape, datatype and data. -/
theorem claim2_payload_keys (x0 : List (List Int)) :
    objKeys (inferenceRequest x0) = ["inputs"] ∧
    (∃ xs, jsonLookup (inferenceRequest x0) "inputs" = some (Json.arr xs)) ∧
    (inputsElems (inferenceRequest x0)).all
      (fun e => objKeys e == ["name", "shape", "datatype", "data"]) = true :=
  ⟨rfl, ⟨_, rfl⟩, rfl⟩

/-- C6: the documented docker command mounts the example folder at
/mnt/models and sets MLSERVER_ENV_TARBALL to the in-container path of the
tarball that conda pack produced, namely the mount destination joined with
the pack output file. -/
theorem claim6_docker_tarball :
    documentedActions.filterMap getDockerRun =
      [("$PWD", "/mnt/models", "MLSERVER_ENV_TARBALL",
        "/mnt/models/old-sklearn.tar.gz", 8080, 8080,
        "seldonio/mlserver:0.6.0.dev0")] ∧
    documentedActions.filterMap getCondaPackOut =
      [("old-sklearn", "old-sklearn.tar.gz")] ∧
    "/mnt/models/old-sklearn.tar.gz" =
      "/mnt/models" ++ "/" ++ "old-sklearn.tar.gz" :=
  ⟨rfl, rfl, rfl⟩

/-- C7: the only YAML file the notebook writes is environment.yml, and its
top-level keys are exactly name and dependencies. -/
theorem claim7_env_yaml_keys :
    documentedActions.filterMap getFileWriteYaml =
      [("environment.yml", environmentYml)] ∧
    yamlTopKeys environmentYml = ["name", "dependencies"] :=
  ⟨rfl, rfl⟩

/-- C8: the name written to model-settings.json equals the model name
segment of the inference URL, so the request targets the configured
model. -/
theorem claim8_model_name_consistent :
    documentedActions.filterMap getFileWriteJson =
      [("model-settings.json", modelSettingsJson)] ∧
    jsonLookup modelSettingsJson "name" = some (Json.str "mnist-svm") ∧
    urlModelName endpointUrl = some "mnist-svm" :=
  ⟨rfl, rfl, by decide⟩

/-- C9: the environment name old-sklearn declared in environment.yml is the
name passed to conda activate and to conda pack, and the tarball file conda
pack writes is the basename of the path assigned to MLSERVER_ENV_TARBALL in
the docker command. -/
theorem claim9_env_name_consistent :
    yamlLookup environmentYml "name" = some (Yaml.str "old-sklearn") ∧
    documentedActions.filterMap getCondaActivate = ["old-sklearn"] ∧
    documentedActions.filterMap getCondaPackOut =
      [("old-sklearn", "old-sklearn.tar.gz")] ∧
    (documentedActions.filterMap getDockerEnvValue).map basename =
      ["old-sklearn.tar.gz"] :=
  ⟨rfl, rfl, rfl, by decide⟩

/-- C4 refutation: running the code cells top to bottom performs steps 1
to 5 and then step 7, but step 6, the container launch, is performed by no
cell: the docker command sits in a markdown cell and the reader is told to
run it in a separate terminal session. -/
theorem claim4_counterexample :
    executedActions.filterMap stepOf = [1, 2, 2, 3, 3, 3, 3, 3, 4, 5, 7] ∧
    (6 : Nat) ∉ executedActions.filterMap stepOf :=
  ⟨rfl, by decide⟩

/-- C4 as amended: the notebook performs or documents the seven steps in
nondecreasing order, every step from 1 to 7 occurs, and the code cells
execute exactly the documented sequence without step 6. -/
theorem claim4_steps_in_order :
    documentedActions.filterMap stepOf = [1, 2, 2, 3, 3, 3, 3, 3, 4, 5, 6, 7] ∧
    sortedNat (documentedActions.filterMap stepOf) = true ∧
    ([1, 2, 3, 4, 5, 6, 7].all
      (fun s => (documentedActions.filterMap stepOf).contains s)) = true ∧
    executedActions.filterMap stepOf =
      (documentedActions.filterMap stepOf).filter (fun s => s != 6) :=
  ⟨rfl, rfl, rfl, rfl⟩

/-- C5: the fit call occurs exactly once in the notebook, the split uses
test size one half with shuffling disabled, and for every image stack the
X_train matrix passed to fit is the untouched first half (rounded down) of
the flattened sample matrix. -/
theorem claim5_fit_on_first_half :
    (documentedActions.filter isFitAction).length = 1 ∧
    documentedActions.filterMap getSplitParams = [(1, 2, false)] ∧
    ∀ images : List (List (List Int)),
      xTrain images =
        (reshapeData images).take ((reshapeData images).length / 2) := by
  refine ⟨rfl, rfl, fun images => ?_⟩
  have h : (reshapeData images).length - ((reshapeData images).length + 1) / 2
      = (reshapeData images).length / 2 := by omega
  show (reshapeData images).take
      ((reshapeData images).length - ((reshapeData images).length + 1) / 2)
    = (reshapeData images).take ((reshapeData images).length / 2)
  rw [h]

/-- Running an appended statement list runs the first part and, only when
it fully succeeds, continues with the second part; a failure of the first
part is the result of the whole run. -/
theorem runProgram_append (exec : Action → Option String) (xs ys : List Stmt) :
    runProgram exec (xs ++ ys) =
      match runProgram exec xs with
      | none => runProgram exec ys
      | some e => some e := by
  induction xs with
  | nil => simp [runProgram]
  | cons s rest ih =>
    cases s with
    | act a =>
      simp only [List.cons_append, runProgram]
      cases exec a with
      | none => simp [ih]
      | some e => simp
    | tryCatch body handler =>
      simp only [List.cons_append, runProgram]
      cases runActions exec body with
      | none => simp [ih]
      | some e =>
        cases runActions exec handler with
        | none => simp [ih]
        | some f => simp

/-- C3: every statement of the notebook is a plain action with no handler
attached, and under any interpretation of the individual actions, whenever
the statements before some action all succeed and that action fails, the
whole run fails with that same error, whatever statements follow. -/
theorem claim3_failures_propagate :
    notebookProgram.all stmtPlain = true ∧
    ∀ (exec : Action → Option String) (e : String) (pre post : List Stmt)
      (a : Action),
      notebookProgram = pre ++ Stmt.act a :: post →
      runProgram exec pre = none →
      exec a = some e →
      runProgram exec notebookProgram = some e := by
  refine ⟨rfl, fun exec e pre post a hsplit hpre hfail => ?_⟩
  rw [hsplit, runProgram_append, hpre]
  simp [runProgram, hfail]

/-- Witness for C3: under the interpretation where the fit call fails and
everything else succeeds, running the notebook ends with the fit error. -/
theorem claim3_witness :
    runProgram execFailFit notebookProgram = some "fit failed" :=
  claim3_failures_propagate.2 execFailFit "fit failed"
    (notebookProgram.take 7) (notebookProgram.drop 8) Action.fitClassifier
    rfl rfl rfl

/-- C10: for any nonempty stack of 8x8 digit images, the slice
x_0 = X_test[0:1] is a single row of 64 features: its shape reads [1, 64],
its nested-list form has one row of 64 entries, and the shape field of the
request payload built from it is the array [1, 64]. -/
theorem claim10_shape_matches_data (images : List (List (List Int)))
    (hne : 1 ≤ images.length)
    (him : ∀ img ∈ images, img.length = 8 ∧ ∀ row ∈ img, row.length = 8) :
    shape2 ((xTest images).take 1) = [1, 64] ∧
    ((xTest images).take 1).length = 1 ∧
    (((xTest images).take 1).headD []).length = 64 ∧
    jsonLookup (firstInput (inferenceRequest ((xTest images).take 1))) "shape"
      = some (Json.arr [Json.num 1, Json.num 64]) := by
  have hlen : (reshapeData images).length = images.length := by
    simp [reshapeData]
  have hrow : ∀ r ∈ reshapeData images, r.length = 64 := by
    intro r hr
    simp only [reshapeData, List.mem_map] at hr
    obtain ⟨img, himg, rfl⟩ := hr
    obtain ⟨h8, hrows⟩ := him img himg
    show img.flatten.length = 64
    rw [List.length_flatten]
    have hmap : img.map List.length = List.replicate 8 8 := by
      rw [List.eq_replicate_iff]
      refine ⟨by simp [h8], ?_⟩
      intro b hb
      simp only [List.mem_map] at hb
      obtain ⟨row, hrw, rfl⟩ := hb
      exact hrows row hrw
    rw [hmap, List.sum_replicate, smul_eq_mul]
  have hxlen : (xTest images).length = (images.length + 1) / 2 := by
    show ((reshapeData images).drop
        ((reshapeData images).length - ((reshapeData images).length + 1) / 2)).length
      = (images.length + 1) / 2
    rw [List.length_drop, hlen]
    omega
  have hpos : xTest images ≠ [] := by
    intro hnil
    rw [hnil] at hxlen
    simp at hxlen
    omega
  obtain ⟨y, ys, hy⟩ := List.exists_cons_of_ne_nil hpos
  have hymem : y ∈ reshapeData images := by
    have hsub : xTest images ⊆ reshapeData images :=
      List.drop_subset _ _
    exact hsub (hy ▸ List.mem_cons_self y ys)
  have hylen : y.length = 64 := hrow y hymem
  have htake : (xTest images).take 1 = [y] := by
    rw [hy]
    rfl
  rw [htake]
  have hsh : shape2 [y] = [1, 64] := by
    simp [shape2, hylen]
  refine ⟨hsh, rfl, by simp [hylen], ?_⟩
  have hfield : jsonLookup (firstInput (inferenceRequest [y])) "shape"
      = some (Json.arr ((shape2 [y]).map (fun n => Json.num (Int.ofNat n)))) := rfl
  rw [hfield, hsh]
  rfl

/-- Witness for C10: the claim instantiated at a concrete stack of two 8x8
images. -/
theorem claim10_witness :
    1 ≤ imagesW.length ∧
    (∀ img ∈ imagesW, img.length = 8 ∧ ∀ row ∈ img, row.length = 8) ∧
    (shape2 ((xTest imagesW).take 1) = [1, 64] ∧
     ((xTest imagesW).take 1).length = 1 ∧
     (((xTest imagesW).take 1).headD []).length = 64 ∧
     jsonLookup (firstInput (inferenceRequest ((xTest imagesW).take 1))) "shape"
       = some (Json.arr [Json.num 1, Json.num 64])) :=
  ⟨by decide, by decide,
    claim10_shape_matches_data imagesW (by decide) (by decide)⟩

end CondaNb
